import Mathlib

/-!
Shallow embedding of the retrieval-and-grounding pipeline of the CRM RAG
service: the vector-store search post-processing (vectorStore.ts), the RAG
engine's filtering, confidence and answer extraction (ragEngine),
the bulk-ingestion aggregation (dataIngestion) and the CRM record
normalizer (crmConnector.ts).  Scores and distances are modelled as exact
rationals; JavaScript exceptions are modelled with Except.
-/

namespace RagSpec

/-- Metadata attached to a vector document: an open string-keyed mapping,
modelled as an association list. -/
abbrev Metadata := List (String × String)

/-- A search source as returned to the RAG caller: content, metadata and
similarity score (SearchSource in types). -/
structure SearchSource where
  content : String
  metadata : Metadata
  score : ℚ
deriving DecidableEq

/-- A document stored in the vector store (VectorDocument in types). -/
structure VectorDocument where
  id : String
  content : String
  metadata : Metadata
deriving DecidableEq

/-- A raw vector search result: document, derived score, optional raw
distance (VectorSearchResult in types). -/
structure VectorSearchResult where
  document : VectorDocument
  score : ℚ
  distance : Option ℚ
deriving DecidableEq

/-- RAGEngine.calculateConfidence: 0 for an empty source list, otherwise
the running sum of scores (a fold, mirroring Array.reduce with initial
value 0) divided by the length, clamped above at 1. -/
def calculateConfidence (sources : List SearchSource) : ℚ :=
  if sources.length = 0 then 0
  else min (sources.foldl (fun sum source => sum + source.score) 0 / sources.length) 1

/-- The distance-to-score conversion inside VectorStore.search: a present
distance d maps to 1 / (1 + d), an absent distance maps to 0. -/
def distanceToScore (distance : Option ℚ) : ℚ :=
  match distance with
  | some d => 1 / (1 + d)
  | none => 0

/-- One row of a Chroma query response as consumed by VectorStore.search:
ids are present, while documents, metadatas and distances may each be
absent as a whole or per entry. -/
structure ChromaQueryResult where
  ids : List String
  documents : Option (List (Option String))
  metadatas : Option (List (Option Metadata))
  distances : Option (List (Option ℚ))

/-- Optional-chained index access a?.[i]: absent array or out-of-range
index yields an absent value. -/
def optIndex {α : Type} (o : Option (List (Option α))) (i : Nat) : Option α :=
  match o with
  | none => none
  | some l => l.getD i none

/-- The result-formatting loop of VectorStore.search: for each index i
into ids, build a result whose content and metadata fall back to empty
values and whose score is derived from the optional distance. -/
def searchFormat (r : ChromaQueryResult) : List VectorSearchResult :=
  (List.range r.ids.length).map (fun i =>
    { document :=
        { id := r.ids.getD i ""
          content := (optIndex r.documents i).getD ""
          metadata := (optIndex r.metadatas i).getD [] }
      score := distanceToScore (optIndex r.distances i)
      distance := optIndex r.distances i })

/-- The post-retrieval filter in RAGEngine.query: keep results whose
score is at least minScore (the comparison is score >= minScore). -/
def filterByScore (results : List VectorSearchResult) (minScore : ℚ) : List VectorSearchResult :=
  results.filter (fun result => decide (minScore ≤ result.score))

/-- The reshaping step in RAGEngine.query: each filtered result becomes a
SearchSource keeping content, metadata and score. -/
def toSources (results : List VectorSearchResult) : List SearchSource :=
  results.map (fun result =>
    { content := result.document.content
      metadata := result.document.metadata
      score := result.score })

/-- The confidence RAGEngine.query reports for a given raw result list
and minScore threshold: filter, reshape, then calculateConfidence. -/
def queryConfidence (results : List VectorSearchResult) (minScore : ℚ) : ℚ :=
  calculateConfidence (toSources (filterByScore results minScore))

/-- One request handed to DataIngestionService.ingestBulk, together with
the outcome its ingestFromSource call has in the ambient environment:
either a document count or a thrown error message. -/
structure IngestRequest where
  dataType : String
  outcome : Except String Nat

/-- DataIngestionService.ingestBulk: iterate the requests, and for each
one either add its count to the running total and to its type's bucket,
or (when ingestFromSource throws) catch, log and move on.  The function
is total: no outcome makes it raise. -/
def ingestBulk (requests : List IngestRequest) : Nat × (String → Nat) :=
  requests.foldl (fun acc request =>
    match request.outcome with
    | Except.ok count =>
        (acc.1 + count,
         fun t => if t = request.dataType then acc.2 t + count else acc.2 t)
    | Except.error _ => acc) (0, fun _ => 0)

/-- A Chroma collection handle, identified by its name. -/
structure Collection where
  name : String

/-- The message of the error VectorStore methods throw when the
collection has not been initialized. -/
def collectionNotInitializedMsg : String :=
  "コレクションが初期化されていません。initialize()を先に呼び出してください。"

/-- VectorStore.addDocuments: first check that the collection is
initialized (throwing otherwise), then return immediately on an empty
document list, and otherwise perform the embedding and add calls, whose
combined external outcome is a parameter; their failure is caught and
rethrown as a fixed batch-add error. -/
def addDocuments (collection : Option Collection) (documents : List VectorDocument)
    (addOutcome : Except String Unit) : Except String Unit :=
  match collection with
  | none => Except.error collectionNotInitializedMsg
  | some _ =>
    if documents.length = 0 then Except.ok ()
    else
      match addOutcome with
      | Except.ok _ => Except.ok ()
      | Except.error _ => Except.error "ドキュメントの一括追加に失敗しました"

/-- A content block of a generation-service response: either a text
block or some other block kind (tool use, etc.). -/
inductive ContentBlock where
  | text (text : String)
  | other
deriving DecidableEq

/-- The fixed substitute answer in RAGEngine.query. -/
def noAnswerMsg : String := "回答を生成できませんでした。"

/-- The answer-extraction step of RAGEngine.query: it reads
response.content[0] and tests whether that first block is a text block,
substituting the fixed message when it is not.  An empty content array
makes the JavaScript access content[0].type throw, which the surrounding
catch converts into a query failure; that path is the error case. -/
def extractAnswer (content : List ContentBlock) : Except Unit String :=
  match content with
  | [] => Except.error ()
  | block :: _ =>
    match block with
    | ContentBlock.text t => Except.ok t
    | ContentBlock.other => Except.ok noAnswerMsg

/-- Modelled from the spec: the first text block of a response, the
quantity the specification says the answer is extracted from.  Used only
to compare the specified behaviour with extractAnswer. -/
def specFirstTextBlock (content : List ContentBlock) : Option String :=
  content.findSome? (fun block =>
    match block with
    | ContentBlock.text t => some t
    | ContentBlock.other => none)

/-- A customer record (Customer in types); optional fields are absent
when the source data leaves them out. -/
structure Customer where
  customerId : String
  name : String
  phone : String
  email : Option String
  address : Option String
  totalSales : Nat
  visitCount : Nat
  registeredAt : Option String
  notes : Option String
deriving DecidableEq

/-- A quote status (QuoteStatus in types). -/
inductive QuoteStatus where
  | draft | sent | approved | rejected | expired
deriving DecidableEq

/-- The string value a quote status carries in the JavaScript data. -/
def QuoteStatus.toText : QuoteStatus → String
  | .draft => "draft"
  | .sent => "sent"
  | .approved => "approved"
  | .rejected => "rejected"
  | .expired => "expired"

/-- A quote line item (QuoteItem in types). -/
structure QuoteItem where
  itemId : String
  description : String
  quantity : Nat
  unitPrice : Nat
  totalPrice : Nat
deriving DecidableEq

/-- A quote record (Quote in types). -/
structure Quote where
  quoteId : String
  customerId : String
  vehicleInfo : String
  items : List QuoteItem
  totalAmount : Nat
  status : QuoteStatus
  quoteDate : String
  validUntil : Option String
  notes : Option String
deriving DecidableEq

/-- A work type tag (WorkType in types). -/
inductive WorkType where
  | repair | paint | inspection | maintenance | other
deriving DecidableEq

/-- The string value a work type carries in the JavaScript data. -/
def WorkType.toText : WorkType → String
  | .repair => "repair"
  | .paint => "paint"
  | .inspection => "inspection"
  | .maintenance => "maintenance"
  | .other => "other"

/-- A used part (PartUsed in types). -/
structure PartUsed where
  partId : String
  partName : String
  quantity : Nat
  unitPrice : Nat
deriving DecidableEq

/-- A work-history record (WorkHistory in types). -/
structure WorkHistory where
  workId : String
  customerId : String
  vehicleInfo : String
  workType : WorkType
  description : String
  technician : String
  workDate : String
  partsUsed : Option (List PartUsed)
  laborCost : Nat
  partsCost : Nat
  totalCost : Nat
  rating : Option Nat
  notes : Option String
deriving DecidableEq

/-- The union of the three CRM record variants (CRMData in
crmConnector.ts). -/
inductive CRMData where
  | customer (c : Customer)
  | quote (q : Quote)
  | workHistory (w : WorkHistory)
deriving DecidableEq

/-- Group the reversed digit list of a number into blocks of three,
inserting a comma before each new block (helper for toLocaleString). -/
def insertCommasAux : List Char → Nat → List Char
  | [], _ => []
  | c :: rest, k =>
    if k = 3 then ',' :: c :: insertCommasAux rest 1
    else c :: insertCommasAux rest (k + 1)

/-- Number.prototype.toLocaleString for a natural number: decimal digits
grouped by three with comma separators. -/
def toLocaleString (n : Nat) : String :=
  String.mk (insertCommasAux (toString n).data.reverse 0).reverse

/-- JavaScript value || fallback for an optional string field: an absent
or empty (falsy) value yields the fallback. -/
def orElseFalsy (o : Option String) (fallback : String) : String :=
  match o with
  | none => fallback
  | some s => if s = "" then fallback else s

/-- A conditional template segment label plus value, rendered as the
empty string when the optional value is absent or empty (falsy). -/
def condLine (label : String) (o : Option String) : String :=
  match o with
  | none => ""
  | some s => if s = "" then "" else label ++ s

/-- The customer branch of CRMConnector.convertToText, mirroring the
template literal line by line: absent email and address fall back to an
explicit marker, while an absent notes field renders its final segment
as the empty string. -/
def customerToText (c : Customer) : String :=
  "顧客情報\n顧客ID: " ++ c.customerId ++
  "\n顧客名: " ++ c.name ++
  "\n電話番号: " ++ c.phone ++
  "\nメールアドレス: " ++ orElseFalsy c.email "なし" ++
  "\n住所: " ++ orElseFalsy c.address "なし" ++
  "\n累計売上: " ++ toLocaleString c.totalSales ++ "円" ++
  "\n来店回数: " ++ toString c.visitCount ++ "回\n" ++
  condLine "メモ: " c.notes

/-- The quote branch of CRMConnector.convertToText. -/
def quoteToText (q : Quote) : String :=
  "見積情報\n見積ID: " ++ q.quoteId ++
  "\n顧客ID: " ++ q.customerId ++
  "\n車両情報: " ++ q.vehicleInfo ++
  "\n見積明細:\n" ++
  String.intercalate "\n"
    (q.items.map (fun item =>
      "  - " ++ item.description ++ ": " ++ toLocaleString item.totalPrice ++ "円")) ++
  "\n合計金額: " ++ toLocaleString q.totalAmount ++ "円" ++
  "\nステータス: " ++ q.status.toText ++
  "\n見積日: " ++ q.quoteDate ++ "\n" ++
  condLine "メモ: " q.notes

/-- The work-history branch of CRMConnector.convertToText: the parts
block is skipped entirely when partsUsed is absent or renders empty, and
an absent or zero rating likewise renders an empty segment. -/
def workToText (w : WorkHistory) : String :=
  let partsText :=
    match w.partsUsed with
    | none => ""
    | some parts =>
      String.intercalate "\n"
        (parts.map (fun part =>
          "  - " ++ part.partName ++ ": " ++ toLocaleString part.unitPrice ++ "円"))
  "作業履歴\n作業ID: " ++ w.workId ++
  "\n顧客ID: " ++ w.customerId ++
  "\n車両情報: " ++ w.vehicleInfo ++
  "\n作業種別: " ++ w.workType.toText ++
  "\n作業内容: " ++ w.description ++
  "\n担当技術者: " ++ w.technician ++
  "\n作業日: " ++ w.workDate ++ "\n" ++
  (if partsText = "" then "" else "使用部品:\n" ++ partsText) ++
  "\n工賃: " ++ toLocaleString w.laborCost ++ "円" ++
  "\n部品代: " ++ toLocaleString w.partsCost ++ "円" ++
  "\n合計費用: " ++ toLocaleString w.totalCost ++ "円\n" ++
  (match w.rating with
   | none => ""
   | some r => if r = 0 then "" else "評価: " ++ toString r ++ "つ星") ++
  "\n" ++
  condLine "メモ: " w.notes

/-- A JSON value, as produced by serializing a parsed CRM record. -/
inductive Json where
  | str (s : String)
  | num (n : Nat)
  | arr (items : List Json)
  | obj (fields : List (String × Json))

/-- Lowercase hexadecimal digit. -/
def hexDigit (d : Nat) : Char :=
  if d < 10 then Char.ofNat (48 + d) else Char.ofNat (87 + d)

/-- JSON string escaping of one character, as JSON.stringify performs
it: quote, backslash and control characters are escaped. -/
def escapeChar (c : Char) : String :=
  if c = '"' then "\\\""
  else if c = '\\' then "\\\\"
  else if c = '\n' then "\\n"
  else if c = '\r' then "\\r"
  else if c = '\t' then "\\t"
  else if c = '\x08' then "\\b"
  else if c = '\x0c' then "\\f"
  else if c.toNat < 32 then
    "\\u00" ++ String.mk [hexDigit (c.toNat / 16), hexDigit (c.toNat % 16)]
  else String.singleton c

/-- JSON string escaping. -/
def jsonEscape (s : String) : String :=
  String.join (s.data.map escapeChar)

/-- Indentation produced by JSON.stringify with a 2-space indent at the
given nesting level. -/
def indentStr (lvl : Nat) : String :=
  String.mk (List.replicate (2 * lvl) ' ')

mutual

/-- Pretty-print a JSON value at a nesting level, following the
JSON.stringify(value, null, 2) layout. -/
def jsonRender : Json → Nat → String
  | Json.str s, _ => "\"" ++ jsonEscape s ++ "\""
  | Json.num n, _ => toString n
  | Json.arr [], _ => "[]"
  | Json.arr (x :: xs), lvl =>
      "[\n" ++ indentStr (lvl + 1) ++ jsonRenderItems x xs (lvl + 1) ++
      "\n" ++ indentStr lvl ++ "]"
  | Json.obj [], _ => "\x7b\x7d"
  | Json.obj (f :: fs), lvl =>
      "\x7b\n" ++ indentStr (lvl + 1) ++ jsonRenderFields f fs (lvl + 1) ++
      "\n" ++ indentStr lvl ++ "\x7d"
termination_by j _ => sizeOf j

/-- Render a nonempty run of array items separated by comma-newline. -/
def jsonRenderItems : Json → List Json → Nat → String
  | x, [], lvl => jsonRender x lvl
  | x, y :: ys, lvl =>
      jsonRender x lvl ++ ",\n" ++ indentStr lvl ++ jsonRenderItems y ys lvl
termination_by x xs _ => sizeOf x + sizeOf xs

/-- Render a nonempty run of object fields separated by comma-newline. -/
def jsonRenderFields : String × Json → List (String × Json) → Nat → String
  | (k, v), [], lvl => "\"" ++ jsonEscape k ++ "\": " ++ jsonRender v lvl
  | (k, v), g :: gs, lvl =>
      "\"" ++ jsonEscape k ++ "\": " ++ jsonRender v lvl ++ ",\n" ++
      indentStr lvl ++ jsonRenderFields g gs lvl
termination_by f fs _ => sizeOf f + sizeOf fs

end

/-- An optional string field of a record: omitted from the JSON object
when absent, as JSON.stringify omits undefined properties. -/
def optStrField (key : String) (o : Option String) : List (String × Json) :=
  match o with
  | none => []
  | some v => [(key, Json.str v)]

/-- An optional numeric field of a record, omitted when absent. -/
def optNumField (key : String) (o : Option Nat) : List (String × Json) :=
  match o with
  | none => []
  | some v => [(key, Json.num v)]

/-- The JSON value of a customer record, fields in declaration order. -/
def customerToJson (c : Customer) : Json :=
  Json.obj
    ([("customerId", Json.str c.customerId),
      ("name", Json.str c.name),
      ("phone", Json.str c.phone)]
     ++ optStrField "email" c.email
     ++ optStrField "address" c.address
     ++ [("totalSales", Json.num c.totalSales),
         ("visitCount", Json.num c.visitCount)]
     ++ optStrField "registeredAt" c.registeredAt
     ++ optStrField "notes" c.notes)

/-- The JSON value of a quote line item. -/
def quoteItemToJson (item : QuoteItem) : Json :=
  Json.obj
    [("itemId", Json.str item.itemId),
     ("description", Json.str item.description),
     ("quantity", Json.num item.quantity),
     ("unitPrice", Json.num item.unitPrice),
     ("totalPrice", Json.num item.totalPrice)]

/-- The JSON value of a quote record, fields in declaration order. -/
def quoteToJson (q : Quote) : Json :=
  Json.obj
    ([("quoteId", Json.str q.quoteId),
      ("customerId", Json.str q.customerId),
      ("vehicleInfo", Json.str q.vehicleInfo),
      ("items", Json.arr (q.items.map quoteItemToJson)),
      ("totalAmount", Json.num q.totalAmount),
      ("status", Json.str q.status.toText),
      ("quoteDate", Json.str q.quoteDate)]
     ++ optStrField "validUntil" q.validUntil
     ++ optStrField "notes" q.notes)

/-- The JSON value of a used part. -/
def partUsedToJson (part : PartUsed) : Json :=
  Json.obj
    [("partId", Json.str part.partId),
     ("partName", Json.str part.partName),
     ("quantity", Json.num part.quantity),
     ("unitPrice", Json.num part.unitPrice)]

/-- The JSON value of a work-history record, fields in declaration
order. -/
def workToJson (w : WorkHistory) : Json :=
  Json.obj
    ([("workId", Json.str w.workId),
      ("customerId", Json.str w.customerId),
      ("vehicleInfo", Json.str w.vehicleInfo),
      ("workType", Json.str w.workType.toText),
      ("description", Json.str w.description),
      ("technician", Json.str w.technician),
      ("workDate", Json.str w.workDate)]
     ++ (match w.partsUsed with
         | none => []
         | some parts => [("partsUsed", Json.arr (parts.map partUsedToJson))])
     ++ [("laborCost", Json.num w.laborCost),
         ("partsCost", Json.num w.partsCost),
         ("totalCost", Json.num w.totalCost)]
     ++ optNumField "rating" w.rating
     ++ optStrField "notes" w.notes)

/-- JSON.stringify(data, null, 2) for a CRM record. -/
def jsonStringify (data : CRMData) : String :=
  match data with
  | CRMData.customer c => jsonRender (customerToJson c) 0
  | CRMData.quote q => jsonRender (quoteToJson q) 0
  | CRMData.workHistory w => jsonRender (workToJson w) 0

/-- CRMConnector.convertToText: dispatch on the dataType tag and render
the matching variant; an unknown tag falls back to the pretty-printed
JSON serialization.  A tag that names one variant while the data is
another makes the JavaScript template call a method on an undefined
field and throw a TypeError; that path is the error case. -/
def convertToText (data : CRMData) (dataType : String) : Except Unit String :=
  if dataType = "customer" then
    match data with
    | CRMData.customer c => Except.ok (customerToText c)
    | _ => Except.error ()
  else if dataType = "quote" then
    match data with
    | CRMData.quote q => Except.ok (quoteToText q)
    | _ => Except.error ()
  else if dataType = "work_history" then
    match data with
    | CRMData.workHistory w => Except.ok (workToText w)
    | _ => Except.error ()
  else Except.ok (jsonStringify data)

/-- The score-level form of calculateConfidence: confidence as a function
of the bare score list, used to relate the engine's confidence
computations to each other. -/
def confOfScores (s : List ℚ) : ℚ :=
  if s = [] then 0 else min (s.sum / s.length) 1

/-- A sample customer record with all optional fields absent, used to
instantiate the normalizer theorems. -/
def sampleCustomer : Customer :=
  { customerId := "C001"
    name := "田中太郎"
    phone := "090-1234-5678"
    email := none
    address := none
    totalSales := 500000
    visitCount := 3
    registeredAt := none
    notes := none }

/-- Folding score addition from any accumulator adds the summed scores. -/
theorem foldl_add_score (l : List SearchSource) (a : ℚ) :
    l.foldl (fun sum source => sum + source.score) a = a + (l.map SearchSource.score).sum := by
  induction l generalizing a with
  | nil => simp
  | cons x xs ih => simp [ih, add_assoc]

/-- calculateConfidence only depends on the list of scores. -/
theorem calculateConfidence_eq_confOfScores (sources : List SearchSource) :
    calculateConfidence sources = confOfScores (sources.map SearchSource.score) := by
  rcases sources with _ | ⟨s, ss⟩
  · rfl
  · simp only [calculateConfidence, confOfScores, foldl_add_score, zero_add,
      List.length_map, List.length_cons]
    norm_num
    rw [if_neg (List.cons_ne_nil _ _)]

/-- C1: for a non-empty source list the confidence returned by the RAG
engine's calculateConfidence is the arithmetic mean of the source scores
clamped above at 1, and for the empty list it is exactly 0. -/
theorem c1_confidence_is_clamped_mean (sources : List SearchSource) :
    (sources ≠ [] →
      calculateConfidence sources =
        min ((sources.map SearchSource.score).sum / (sources.length : ℚ)) 1) ∧
    calculateConfidence ([] : List SearchSource) = 0 := by
  constructor
  · intro h
    unfold calculateConfidence
    rw [if_neg (by simpa [List.length_eq_zero] using h), foldl_add_score, zero_add]
  · rfl

/-- Witness for C1 at a concrete two-element source list. -/
theorem c1_confidence_is_clamped_mean_witness :
    ([⟨"a", [], 1/2⟩, ⟨"b", [], 1/4⟩] : List SearchSource) ≠ [] ∧
    calculateConfidence [⟨"a", [], 1/2⟩, ⟨"b", [], 1/4⟩] =
      min ((([⟨"a", [], 1/2⟩, ⟨"b", [], 1/4⟩] : List SearchSource).map SearchSource.score).sum /
        (([⟨"a", [], 1/2⟩, ⟨"b", [], 1/4⟩] : List SearchSource).length : ℚ)) 1 :=
  ⟨by decide, (c1_confidence_is_clamped_mean _).1 (by decide)⟩

/-- When the distances row is present with all entries defined, the
scores of the formatted search results are exactly the pointwise
distance-to-score images of the distances. -/
theorem searchFormat_scores (r : ChromaQueryResult) (ds : List ℚ)
    (hd : r.distances = some (ds.map some)) (hlen : ds.length = r.ids.length) :
    (searchFormat r).map VectorSearchResult.score = ds.map (fun d => 1 / (1 + d)) := by
  unfold searchFormat
  rw [List.map_map]
  apply List.ext_getElem
  · simp [hlen]
  · intro i h1 h2
    simp only [List.getElem_map, List.getElem_range, Function.comp_apply]
    rw [hd]
    have hi : i < (ds.map some).length := by
      simpa using h2
    show distanceToScore ((ds.map some).getD i none) = _
    rw [List.getD_eq_getElem _ _ hi, List.getElem_map]
    rfl

/-- Non-decreasing defined non-negative distances produce non-increasing
scores in the output of the search formatting loop. -/
theorem searchFormat_sorted (r : ChromaQueryResult) (ds : List ℚ)
    (hd : r.distances = some (ds.map some)) (hlen : ds.length = r.ids.length)
    (hpos : ∀ d ∈ ds, 0 ≤ d) (hsort : List.Sorted (· ≤ ·) ds) :
    List.Sorted (· ≥ ·) ((searchFormat r).map VectorSearchResult.score) := by
  rw [searchFormat_scores r ds hd hlen]
  have h2 : ds.Pairwise (fun a b => (1 : ℚ) / (1 + b) ≤ 1 / (1 + a)) := by
    refine List.Pairwise.imp_of_mem (fun ha hb hab => ?_) hsort
    have := hpos _ ha
    exact one_div_le_one_div_of_le (by linarith) (by linarith)
  exact List.Pairwise.map _ (fun a b h => h) h2

/-- C2: the distance-to-score transform of VectorStore.search is
strictly decreasing on non-negative distances, lands in the unit
interval, sends distance zero to the maximum score 1, and therefore a
search response in non-decreasing distance order yields results in
non-increasing score order. -/
theorem c2_score_transform :
    (∀ d1 d2 : ℚ, 0 ≤ d1 → d1 < d2 →
      distanceToScore (some d2) < distanceToScore (some d1)) ∧
    (∀ d : ℚ, 0 ≤ d → 0 ≤ distanceToScore (some d) ∧ distanceToScore (some d) ≤ 1) ∧
    distanceToScore (some 0) = 1 ∧
    (∀ (r : ChromaQueryResult) (ds : List ℚ),
      r.distances = some (ds.map some) → ds.length = r.ids.length →
      (∀ d ∈ ds, 0 ≤ d) → List.Sorted (· ≤ ·) ds →
      List.Sorted (· ≥ ·) ((searchFormat r).map VectorSearchResult.score)) := by
  refine ⟨fun d1 d2 h1 h12 => ?_, fun d h => ⟨?_, ?_⟩, by norm_num [distanceToScore],
    searchFormat_sorted⟩
  · simp only [distanceToScore]
    exact one_div_lt_one_div_of_lt (by linarith) (by linarith)
  · simp only [distanceToScore]
    exact div_nonneg (by norm_num) (by linarith)
  · simp only [distanceToScore]
    rw [div_le_one (by linarith)]
    linarith

/-- Witness for C2 at concrete distances 0, 2, 3 and a concrete
two-element search response. -/
theorem c2_score_transform_witness :
    distanceToScore (some 2) < distanceToScore (some 0) ∧
    (0 ≤ distanceToScore (some 3) ∧ distanceToScore (some 3) ≤ 1) ∧
    List.Sorted (· ≥ ·)
      ((searchFormat ⟨["a", "b"], none, none, some [some 0, some 2]⟩).map
        VectorSearchResult.score) :=
  ⟨c2_score_transform.1 0 2 le_rfl (by norm_num),
   c2_score_transform.2.1 3 (by norm_num),
   c2_score_transform.2.2.2 ⟨["a", "b"], none, none, some [some 0, some 2]⟩ [0, 2]
     rfl rfl (by norm_num) (by decide)⟩

/-- C4: a result whose score equals the minScore threshold exactly is
retained by the RAG engine's post-retrieval filter, for every result
list and every threshold in the unit interval: the comparison is
inclusive. -/
theorem c4_threshold_inclusive (results : List VectorSearchResult)
    (result : VectorSearchResult) (minScore : ℚ)
    (_h0 : 0 ≤ minScore) (_h1 : minScore ≤ 1)
    (hmem : result ∈ results) (hscore : result.score = minScore) :
    result ∈ filterByScore results minScore := by
  unfold filterByScore
  rw [List.mem_filter]
  exact ⟨hmem, by simp [hscore]⟩

/-- Witness for C4: a result scoring exactly 1/2 survives the filter at
threshold 1/2. -/
theorem c4_threshold_inclusive_witness :
    (0 ≤ (1/2 : ℚ)) ∧
    (⟨⟨"d1", "text", []⟩, 1/2, some 1⟩ : VectorSearchResult) ∈
      filterByScore [⟨⟨"d1", "text", []⟩, 1/2, some 1⟩] (1/2) :=
  ⟨by norm_num,
   c4_threshold_inclusive _ _ _ (by norm_num) (by norm_num)
     (List.mem_singleton.mpr rfl) rfl⟩

/-- Unrolling the ingestBulk fold from an arbitrary accumulator. -/
theorem ingestBulk_foldl_total (requests : List IngestRequest) (init : Nat × (String → Nat)) :
    (requests.foldl (fun acc request =>
      match request.outcome with
      | Except.ok count =>
          (acc.1 + count,
           fun t => if t = request.dataType then acc.2 t + count else acc.2 t)
      | Except.error _ => acc) init).1 =
    init.1 + (requests.map (fun request =>
      match request.outcome with
      | Except.ok count => count
      | Except.error _ => 0)).sum := by
  induction requests generalizing init with
  | nil => simp
  | cons r rs ih =>
    cases hr : r.outcome with
    | ok count => simp [hr, ih, add_assoc]
    | error e => simp [hr, ih]

/-- C5: ingestBulk is total (no outcome makes it raise), and its
reported total is the sum of the counts of exactly the sources whose
ingestFromSource call succeeded; a failing source contributes 0 and does
not stop the iteration. -/
theorem c5_ingestBulk_total_sum (requests : List IngestRequest) :
    (ingestBulk requests).1 =
      (requests.map (fun request =>
        match request.outcome with
        | Except.ok count => count
        | Except.error _ => 0)).sum := by
  unfold ingestBulk
  rw [ingestBulk_foldl_total]
  simp

/-- Splitting a rational list sum along a Boolean predicate. -/
theorem sum_filter_split (l : List ℚ) (p : ℚ → Bool) :
    (l.filter p).sum + (l.filter (fun x => ! p x)).sum = l.sum := by
  induction l with
  | nil => simp
  | cons x xs ih =>
    cases hp : p x <;> simp [List.filter_cons, hp] <;> linarith [ih]

/-- Splitting a list length along a Boolean predicate. -/
theorem length_filter_split (l : List ℚ) (p : ℚ → Bool) :
    (l.filter p).length + (l.filter (fun x => ! p x)).length = l.length := by
  induction l with
  | nil => simp
  | cons x xs ih =>
    cases hp : p x <;> simp [List.filter_cons, hp] <;> omega

/-- The sum of the elements at or above a threshold is at least the
threshold times their count. -/
theorem filter_ge_sum_lower (l : List ℚ) (t : ℚ) :
    t * ((l.filter (fun x => decide (t ≤ x))).length : ℚ) ≤
      (l.filter (fun x => decide (t ≤ x))).sum := by
  induction l with
  | nil => simp
  | cons x xs ih =>
    by_cases hx : t ≤ x
    · have hxt : decide (t ≤ x) = true := decide_eq_true hx
      simp only [List.filter_cons, hxt, if_true, List.sum_cons, List.length_cons]
      push_cast
      nlinarith [ih, hx]
    · simpa [List.filter_cons, hx] using ih

/-- The sum of the elements strictly below a threshold is at most the
threshold times their count. -/
theorem filter_lt_sum_upper (l : List ℚ) (t : ℚ) :
    (l.filter (fun x => ! decide (t ≤ x))).sum ≤
      t * ((l.filter (fun x => ! decide (t ≤ x))).length : ℚ) := by
  induction l with
  | nil => simp
  | cons x xs ih =>
    by_cases hx : t ≤ x
    · simpa [List.filter_cons, hx] using ih
    · have hxd : x ≤ t := le_of_not_le hx
      have hxt : decide (t ≤ x) = false := decide_eq_false hx
      simp only [List.filter_cons, hxt, Bool.not_false, if_true, List.sum_cons,
        List.length_cons]
      push_cast
      nlinarith [ih, hxd]

/-- Removing the below-threshold part of a list cannot lower its mean,
in cross-multiplied form over the split sums. -/
theorem mean_le_of_bounds (sA sB a b t : ℚ) (ha : 0 < a) (hb : 0 ≤ b)
    (h1 : t * a ≤ sA) (h2 : sB ≤ t * b) :
    (sA + sB) / (a + b) ≤ sA / a := by
  rw [div_le_div_iff (by linarith) ha]
  nlinarith

/-- The mean of the elements at or above a threshold is at least the
mean of the whole list, provided some element survives. -/
theorem mean_filter_ge (l : List ℚ) (t : ℚ)
    (hne : l.filter (fun x => decide (t ≤ x)) ≠ []) :
    l.sum / l.length ≤
      (l.filter (fun x => decide (t ≤ x))).sum /
        ((l.filter (fun x => decide (t ≤ x))).length : ℚ) := by
  have hsum := sum_filter_split l (fun x => decide (t ≤ x))
  have hlen := length_filter_split l (fun x => decide (t ≤ x))
  have ha : 0 < ((l.filter (fun x => decide (t ≤ x))).length : ℚ) := by
    have h0 : (l.filter (fun x => decide (t ≤ x))).length ≠ 0 := by
      simpa [List.length_eq_zero] using hne
    exact_mod_cast Nat.pos_of_ne_zero h0
  have hb : 0 ≤ ((l.filter (fun x => ! decide (t ≤ x))).length : ℚ) := by positivity
  have key := mean_le_of_bounds
    ((l.filter (fun x => decide (t ≤ x))).sum)
    ((l.filter (fun x => ! decide (t ≤ x))).sum)
    ((l.filter (fun x => decide (t ≤ x))).length)
    ((l.filter (fun x => ! decide (t ≤ x))).length)
    t ha hb (filter_ge_sum_lower l t) (filter_lt_sum_upper l t)
  rw [hsum] at key
  have hcast : ((l.filter (fun x => decide (t ≤ x))).length : ℚ) +
      ((l.filter (fun x => ! decide (t ≤ x))).length : ℚ) = (l.length : ℚ) := by
    exact_mod_cast hlen
  rw [hcast] at key
  exact key

/-- Thresholding a score list cannot lower the clamped mean, provided
some score survives. -/
theorem confOfScores_filter_ge (s : List ℚ) (t : ℚ)
    (hne : s.filter (fun x => decide (t ≤ x)) ≠ []) :
    confOfScores s ≤ confOfScores (s.filter (fun x => decide (t ≤ x))) := by
  have hs : s ≠ [] := by
    intro h
    exact hne (by simp [h])
  unfold confOfScores
  rw [if_neg hs, if_neg hne]
  exact min_le_min (mean_filter_ge s t hne) le_rfl

/-- Reshaping results to sources preserves the score list. -/
theorem toSources_scores (m : List VectorSearchResult) :
    (toSources m).map SearchSource.score = m.map VectorSearchResult.score := by
  unfold toSources
  rw [List.map_map]
  rfl

/-- Filtering results by score then projecting to scores equals
projecting then filtering the bare scores. -/
theorem filterByScore_map_scores (results : List VectorSearchResult) (t : ℚ) :
    (filterByScore results t).map VectorSearchResult.score =
      (results.map VectorSearchResult.score).filter (fun x => decide (t ≤ x)) := by
  rw [List.map_filter]
  rfl

/-- The confidence RAGEngine.query reports depends only on the filtered
score list. -/
theorem queryConfidence_eq (results : List VectorSearchResult) (t : ℚ) :
    queryConfidence results t =
      confOfScores ((results.map VectorSearchResult.score).filter (fun x => decide (t ≤ x))) := by
  unfold queryConfidence
  rw [calculateConfidence_eq_confOfScores, toSources_scores, filterByScore_map_scores]

/-- C3 counterexample: for the single result of score 1/2 and thresholds
0 and 1 (0 at most 1), raising the threshold to 1 empties the filtered
set and drops the confidence from 1/2 to 0, so the confidence is not
non-decreasing in the threshold. -/
theorem c3_counterexample :
    queryConfidence [⟨⟨"d1", "doc", []⟩, 1/2, some 1⟩] 1 <
    queryConfidence [⟨⟨"d1", "doc", []⟩, 1/2, some 1⟩] 0 := by
  have h1 : queryConfidence [⟨⟨"d1", "doc", []⟩, 1/2, some 1⟩] 1 = 0 := by
    norm_num [queryConfidence, filterByScore, toSources, calculateConfidence]
  have h0 : queryConfidence [⟨⟨"d1", "doc", []⟩, 1/2, some 1⟩] 0 = 1/2 := by
    norm_num [queryConfidence, filterByScore, toSources, calculateConfidence]
  rw [h1, h0]
  norm_num

/-- C3 amended: for a fixed result list and thresholds t1 at most t2,
the confidence at t2 is at least the confidence at t1 provided the
filter at t2 still retains at least one result; when it retains none
the confidence drops to 0 regardless of the confidence at t1. -/
theorem c3_confidence_monotone_unless_emptied (results : List VectorSearchResult)
    (t1 t2 : ℚ) (h12 : t1 ≤ t2) (hne : filterByScore results t2 ≠ []) :
    queryConfidence results t1 ≤ queryConfidence results t2 := by
  rw [queryConfidence_eq, queryConfidence_eq]
  have hpred : ∀ x ∈ results.map VectorSearchResult.score,
      (decide (t2 ≤ x) && decide (t1 ≤ x)) = decide (t2 ≤ x) := by
    intro x _
    by_cases h2 : t2 ≤ x
    · simp [h2, le_trans h12 h2]
    · simp [h2]
  have hfil : ((results.map VectorSearchResult.score).filter (fun x => decide (t1 ≤ x))).filter
        (fun x => decide (t2 ≤ x)) =
      (results.map VectorSearchResult.score).filter (fun x => decide (t2 ≤ x)) := by
    rw [List.filter_filter]
    exact List.filter_congr' hpred
  rw [← hfil]
  apply confOfScores_filter_ge
  rw [hfil]
  intro hnil
  apply hne
  have h0 : (filterByScore results t2).map VectorSearchResult.score = [] := by
    rw [filterByScore_map_scores]
    exact hnil
  exact List.map_eq_nil.mp h0

/-- Witness for the amended C3 at a concrete two-result list and
thresholds 0 and 3/5. -/
theorem c3_confidence_monotone_unless_emptied_witness :
    queryConfidence [⟨⟨"d1", "a", []⟩, 1/2, some 1⟩, ⟨⟨"d2", "b", []⟩, 3/4, none⟩] 0 ≤
    queryConfidence [⟨⟨"d1", "a", []⟩, 1/2, some 1⟩, ⟨⟨"d2", "b", []⟩, 3/4, none⟩] (3/5) :=
  c3_confidence_monotone_unless_emptied _ 0 (3/5) (by norm_num)
    (by norm_num [filterByScore])

set_option maxRecDepth 4000 in
/-- C7 counterexample: the sample customer has an absent notes field,
yet the rendered text contains no notes label at all (the string メモ
does not occur in it), so the absent optional notes field is omitted
rather than rendered as an explicit unset marker line. -/
theorem c7_counterexample :
    sampleCustomer.notes = none ∧
    convertToText (CRMData.customer sampleCustomer) "customer" =
      Except.ok (customerToText sampleCustomer) ∧
    ¬ ("メモ".data <:+: (customerToText sampleCustomer).data) :=
  ⟨rfl, rfl, by decide⟩

/-- C7 amended: for a customer record, absent email and address fields
render as explicit unset marker lines, but an absent notes field
renders as an empty trailing segment: its line is omitted entirely. -/
theorem c7_unset_markers_email_address_only (c : Customer)
    (he : c.email = none) (ha : c.address = none) (hn : c.notes = none) :
    convertToText (CRMData.customer c) "customer" =
      Except.ok ("顧客情報\n顧客ID: " ++ c.customerId ++ "\n顧客名: " ++ c.name ++
        "\n電話番号: " ++ c.phone ++ "\nメールアドレス: " ++ "なし" ++ "\n住所: " ++ "なし" ++
        "\n累計売上: " ++ toLocaleString c.totalSales ++ "円" ++
        "\n来店回数: " ++ toString c.visitCount ++ "回\n") := by
  simp [convertToText, customerToText, orElseFalsy, condLine, he, ha, hn,
    String.append_empty]

/-- Witness for the amended C7 at the sample customer. -/
theorem c7_unset_markers_email_address_only_witness :
    convertToText (CRMData.customer sampleCustomer) "customer" =
      Except.ok ("顧客情報\n顧客ID: " ++ sampleCustomer.customerId ++
        "\n顧客名: " ++ sampleCustomer.name ++
        "\n電話番号: " ++ sampleCustomer.phone ++ "\nメールアドレス: " ++ "なし" ++
        "\n住所: " ++ "なし" ++
        "\n累計売上: " ++ toLocaleString sampleCustomer.totalSales ++ "円" ++
        "\n来店回数: " ++ toString sampleCustomer.visitCount ++ "回\n") :=
  c7_unset_markers_email_address_only sampleCustomer rfl rfl rfl

/-- C8: a search result built with an absent raw distance is assigned
score exactly 0, and therefore any strictly positive minScore threshold
excludes it from the filtered set. -/
theorem c8_absent_distance_scores_zero (r : ChromaQueryResult) (res : VectorSearchResult)
    (m : ℚ) (hmem : res ∈ searchFormat r) (hdist : res.distance = none) (hm : 0 < m) :
    res.score = 0 ∧ res ∉ filterByScore (searchFormat r) m := by
  have hscore : res.score = 0 := by
    unfold searchFormat at hmem
    rw [List.mem_map] at hmem
    obtain ⟨i, _, heq⟩ := hmem
    have hd : optIndex r.distances i = none := by
      rw [← heq] at hdist
      exact hdist
    rw [← heq]
    show distanceToScore (optIndex r.distances i) = 0
    rw [hd]
    rfl
  refine ⟨hscore, fun hmf => ?_⟩
  unfold filterByScore at hmf
  rw [List.mem_filter] at hmf
  have hle : m ≤ 0 := by simpa [hscore] using of_decide_eq_true hmf.2
  linarith

/-- Witness for C8: a one-row response with no distances array yields a
zero-score result that threshold 1 excludes. -/
theorem c8_absent_distance_scores_zero_witness :
    ((⟨⟨"a", "", []⟩, 0, none⟩ : VectorSearchResult).score = 0) ∧
    (⟨⟨"a", "", []⟩, 0, none⟩ : VectorSearchResult) ∉
      filterByScore (searchFormat ⟨["a"], none, none, none⟩) 1 :=
  c8_absent_distance_scores_zero ⟨["a"], none, none, none⟩ _ 1 (by decide) rfl
    (by norm_num)

/-- C6 counterexample: a generation response whose first block is not a
text block but which does contain a text block.  The specified first
text block is that later block's text, yet extractAnswer substitutes the
fixed no-answer message, so the answer is not the first text block of
the response. -/
theorem c6_counterexample :
    specFirstTextBlock [ContentBlock.other, ContentBlock.text "hello"] = some "hello" ∧
    extractAnswer [ContentBlock.other, ContentBlock.text "hello"] = Except.ok noAnswerMsg ∧
    noAnswerMsg ≠ "hello" :=
  ⟨rfl, rfl, by decide⟩

/-- C6 amended: the extraction step looks only at the first content
block: a leading text block yields its text, a leading non-text block
yields the fixed substitute message even when a text block follows, and
an empty content array is not handled by the extraction step but makes
the call fail. -/
theorem c6_first_block_only :
    (∀ (t : String) (rest : List ContentBlock),
      extractAnswer (ContentBlock.text t :: rest) = Except.ok t) ∧
    (∀ rest : List ContentBlock,
      extractAnswer (ContentBlock.other :: rest) = Except.ok noAnswerMsg) ∧
    extractAnswer [] = Except.error () :=
  ⟨fun _ _ => rfl, fun _ => rfl, rfl⟩

/-- C9: addDocuments checks collection initialization before the
empty-input early return: with no collection it fails with the
fixed initialization error for every document list, the empty one
included, while under an initialized collection the empty list is a
no-op regardless of the external add outcome. -/
theorem c9_addDocuments_init_precedes_empty_check :
    (∀ (documents : List VectorDocument) (addOutcome : Except String Unit),
      addDocuments none documents addOutcome = Except.error collectionNotInitializedMsg) ∧
    (∀ (c : Collection) (addOutcome : Except String Unit),
      addDocuments (some c) [] addOutcome = Except.ok ()) :=
  ⟨fun _ _ => rfl, fun _ _ => rfl⟩

/-- C10: convertToText with a dataType tag outside the three known tags
never reaches a record-specific template: it totally (without raising)
returns the 2-space pretty-printed JSON serialization of the record. -/
theorem c10_unknown_dataType_falls_back_to_json (data : CRMData) (dataType : String)
    (h1 : dataType ≠ "customer") (h2 : dataType ≠ "quote") (h3 : dataType ≠ "work_history") :
    convertToText data dataType = Except.ok (jsonStringify data) := by
  unfold convertToText
  rw [if_neg h1, if_neg h2, if_neg h3]

/-- Witness for C10 at a concrete customer record and the unknown tag
invoice. -/
theorem c10_unknown_dataType_falls_back_to_json_witness :
    convertToText (CRMData.customer sampleCustomer) "invoice" =
      Except.ok (jsonStringify (CRMData.customer sampleCustomer)) :=
  c10_unknown_dataType_falls_back_to_json _ _ (by decide) (by decide) (by decide)

end RagSpec
